import Mathlib

/-!
Verification development for the elizaOS mcp-gateway payment and routing core.

The TypeScript sources are shallowly embedded here:
* `src/core/payment-middleware.ts` (class `PaymentMiddleware`) under namespace
  `PaymentMiddleware`;
* `src/paywall-guard.ts` (class `PaywallGuard`) under namespace `PaywallGuard`;
* the `CallTool` handler of `src/core/gateway.ts` under namespace `GatewayServer`;
* the 402 branch of the HTTP server's `handleRequest` under namespace
  `GatewayHttpServer`.

JavaScript `number` arithmetic (`parseFloat`, `*`, `+`, `/`, `Math.floor`,
`toFixed`) is modelled exactly as IEEE-754 binary64 round-to-nearest-even over
unnormalized rationals (`Frac`), valid on the normal finite range (no
overflow, subnormals or negative zero arise in any statement below).
-/

/-- Unnormalized fraction: numerator and positive denominator (all smart
constructors below keep the denominator positive). -/
structure Frac where
  num : Int
  den : Nat
deriving Repr, DecidableEq

namespace Frac

def ofNat (n : Nat) : Frac := ⟨n, 1⟩

def mul (x y : Frac) : Frac := ⟨x.num * y.num, x.den * y.den⟩

def add (x y : Frac) : Frac := ⟨x.num * y.den + y.num * x.den, x.den * y.den⟩

def neg (x : Frac) : Frac := ⟨-x.num, x.den⟩

/-- Division by a positive natural constant. -/
def divNat (x : Frac) (n : Nat) : Frac := ⟨x.num, x.den * n⟩

def blt (x y : Frac) : Bool := x.num * y.den < y.num * x.den

def floor (x : Frac) : Int := x.num.fdiv x.den

/-- Round to the nearest integer, ties to even. -/
def rne (x : Frac) : Int :=
  let f := x.floor
  let r2 := 2 * (x.num - f * x.den)
  if r2 < (x.den : Int) then f
  else if (x.den : Int) < r2 then f + 1
  else if f % 2 = 0 then f else f + 1

/-- 2^k as a fraction, for a possibly negative exponent k. -/
def pow2 (k : Int) : Frac :=
  if 0 ≤ k then ⟨2 ^ k.toNat, 1⟩ else ⟨1, 2 ^ (-k).toNat⟩

/-- Fuel-based binary logarithm: with enough fuel, `log2fuel fuel n = ⌊log2 n⌋`
for n ≥ 1. The fuel bound 4096 below covers every magnitude reachable from
the IEEE-754 normal range used in this development. -/
def log2fuel : Nat → Nat → Nat
  | 0, _ => 0
  | fuel + 1, n => if n ≥ 2 then log2fuel fuel (n / 2) + 1 else 0

def natLog2 (n : Nat) : Nat := log2fuel 4096 n

/-- ⌊log2 x⌋ for a positive fraction x. The first guess from the numerator and
denominator bit lengths is exact or one too high; a single comparison fixes it. -/
def log2floor (x : Frac) : Int :=
  let a := x.num.toNat
  let b := x.den
  let guess : Int := (natLog2 a : Int) - (natLog2 b : Int)
  if blt x (pow2 guess) then guess - 1 else guess

/-- Round a fraction to the nearest IEEE-754 binary64 value (round to nearest,
ties to even), modelled on the normal finite range. -/
def roundDouble (x : Frac) : Frac :=
  if x.num = 0 then ⟨0, 1⟩
  else if x.num < 0 then neg (roundDouble' (neg x))
  else roundDouble' x
where
  roundDouble' (y : Frac) : Frac :=
    let e := log2floor y - 52
    let n := rne (mul y (pow2 (-e)))
    mul ⟨n, 1⟩ (pow2 e)

end Frac

/-- Numeric value of a list of decimal digit characters. -/
def digitsToNat (cs : List Char) : Nat :=
  cs.foldl (fun acc c => acc * 10 + (c.toNat - 48)) 0

def isDigitChar (c : Char) : Bool := '0' ≤ c ∧ c ≤ '9'

/-- Exact value of the longest leading `digits ['.' digits]` run of a
digits-and-dots character list — the JS `parseFloat` grammar restricted to the
character set that survives `.replace(/[^0-9.]/g, '')`; `none` models `NaN`
(no digit found in the leading run). -/
def parseDecLead (cs : List Char) : Option Frac :=
  let ip := cs.takeWhile isDigitChar
  let rest := cs.drop ip.length
  match rest with
  | '.' :: rest2 =>
    let fp := rest2.takeWhile isDigitChar
    if ip.isEmpty ∧ fp.isEmpty then none
    else some ⟨(digitsToNat ip) * 10 ^ fp.length + digitsToNat fp, 10 ^ fp.length⟩
  | _ => if ip.isEmpty then none else some ⟨digitsToNat ip, 1⟩

/-- JS whitespace test for the characters relevant here. -/
def isWSChar (c : Char) : Bool :=
  c = ' ' ∨ c = '\t' ∨ c = '\n' ∨ c = '\r' ∨ c = '\x0b' ∨ c = '\x0c'

/-- JS `parseFloat` for the general strings that reach it in
`calculateMarkup`: skip leading whitespace, optional sign, then the longest
`digits ['.' digits]` run (the exponent form and `Infinity` never arise from
the gateway's inputs and are not modelled); `none` models `NaN`. The exact
decimal value is then rounded to binary64, as ECMA-262 prescribes. -/
def jsParseFloat (s : String) : Option Frac :=
  let cs := s.toList.dropWhile isWSChar
  match cs with
  | '-' :: rest => (parseDecLead rest).map (fun q => Frac.roundDouble (Frac.neg q))
  | '+' :: rest => (parseDecLead rest).map Frac.roundDouble
  | _ => (parseDecLead cs).map Frac.roundDouble

/-- Model of `amount.replace(/[^0-9.]/g, '')`. -/
def cleanAmount (s : String) : String :=
  ⟨s.toList.filter (fun c => isDigitChar c ∨ c = '.')⟩

/-- Left-pad a string with zeros to the given width. -/
def padZeros (w : Nat) (s : String) : String :=
  (⟨List.replicate (w - s.length) '0'⟩ : String) ++ s

/-- JS `Number.prototype.toFixed(6)` on the exact value of a binary64 number:
the integer n minimizing |n/10^6 - x|, ties to the larger n. -/
def toFixed6 (d : Frac) : String :=
  let num6 := d.num * 1000000
  let f := num6.fdiv d.den
  let r2 := 2 * (num6 - f * (d.den : Int))
  let n := if (d.den : Int) ≤ r2 then f + 1 else f
  let m := n.natAbs
  (if n < 0 then "-" else "") ++ (m / 1000000).repr ++ "." ++ padZeros 6 (m % 1000000).repr

/-- Drop the first occurrence of the pattern from the character list — the
behaviour of JS `String.prototype.replace` with a string pattern and an empty
replacement (no change when the pattern does not occur). -/
def dropFirstOcc (pat : List Char) : List Char → List Char
  | [] => []
  | c :: t => if pat.isPrefixOf (c :: t) then (c :: t).drop pat.length else c :: dropFirstOcc pat t

/-- Model of `header.replace('Bearer ', '')`. -/
def stripBearer (s : String) : String := ⟨dropFirstOcc "Bearer ".toList s.toList⟩

/-- Model of `markup.replace('%', '')`. -/
def dropFirstPercent (s : String) : String := ⟨dropFirstOcc ['%'] s.toList⟩

namespace PaymentMiddleware

/-! Configuration model, as consumed by `src/core/payment-middleware.ts`
(`GatewayConfig`, `ToolPricing`, `ApiKeyConfig` from `src/types/index.ts`).
JS `Record<string, string>` objects are modelled as association lists with
first-match lookup; header bags (`Record<string, string>`) likewise. -/

structure ToolPricing where
  free : Bool := false
  x402 : Option String := none
  apiKeyTiers : Option (List (String × String)) := none
deriving Repr, DecidableEq

structure ToolConfig where
  name : String
  pricing : Option ToolPricing := none
deriving Repr, DecidableEq

structure ServerConfig where
  name : String
  tools : Option (List ToolConfig) := none
  defaultPricing : Option ToolPricing := none
deriving Repr, DecidableEq

structure ApiKeyConfig where
  key : String
  tier : String
deriving Repr, DecidableEq

structure PaymentConfig where
  enabled : Bool := false
  recipient : Option String := none
  network : Option String := none
  facilitator : Option String := none
  apiKeys : Option (List ApiKeyConfig) := none
deriving Repr, DecidableEq

structure GatewayConfig where
  servers : List ServerConfig
  payment : Option PaymentConfig := none
deriving Repr, DecidableEq

/-- Inbound header bag (key/value pairs; lookup is by exact key, as JS
property access on an object is). -/
abbrev Headers := List (String × String)

/-- Exact-key lookup in a record / header bag. -/
def hget (h : List (String × String)) (k : String) : Option String :=
  (h.find? (fun p => p.1 == k)).map (·.2)

/-- JS `a || b` on possibly-absent strings: the empty string is falsy. -/
def jsOr (a b : Option String) : Option String :=
  match a with
  | some v => if v = "" then b else some v
  | none => b

/-- JS truthiness filter: `some ""` collapses to `none`. -/
def jsTruthy (a : Option String) : Option String :=
  match a with
  | some v => if v = "" then none else some v
  | none => none

/-- JS `a || d` where d is a (string) default value. -/
def jsOrD (a : Option String) (d : String) : String :=
  match jsTruthy a with
  | some v => v
  | none => d

inductive PricingMethod
  | x402
  | apiKey
  | free
deriving Repr, DecidableEq

structure PricingInfo where
  amount : String
  method : PricingMethod
deriving Repr, DecidableEq

structure PaymentVerificationResult where
  authorized : Bool
  error : Option String := none
  pricing : Option PricingInfo := none
deriving Repr, DecidableEq

structure AcceptEntry where
  scheme : String
  network : String
  maxAmountRequired : String
  resource : String
  description : String
  mimeType : String
  payTo : String
  maxTimeoutSeconds : Nat
  asset : String
deriving Repr, DecidableEq

structure PaymentRequirements where
  x402Version : Nat
  accepts : List AcceptEntry
  error : String
deriving Repr, DecidableEq

/-- The static `USDC_ADDRESSES` table. -/
def USDC_ADDRESSES : List (String × String) :=
  [("base-sepolia", "0x036CbD53842c5426634e7929541eC2318f3dCF7e"),
   ("base", "0x833589fCD6eDb6E08f4c7C32D4f71b54bdA02913"),
   ("ethereum", "0xA0b86991c6218b36c1d19D4a2e9Eb0cE3606eB48"),
   ("optimism", "0x0b2C639c533813f4Aa9D7837CAf62653d097Ff85"),
   ("polygon", "0x3c499c542cEF5E3811e1192ce70d8cC03d5c3359")]

/-- `getUsdcAddress`: table lookup with the base-sepolia entry as fallback. -/
def getUsdcAddress (network : String) : String :=
  jsOrD (hget USDC_ADDRESSES network) "0x036CbD53842c5426634e7929541eC2318f3dCF7e"

/-- The `apiKeyCache` built in the constructor: `Map.set` per entry, so a
duplicated key keeps the last entry. -/
def apiKeyCacheGet (cfg : GatewayConfig) (key : String) : Option ApiKeyConfig :=
  match cfg.payment with
  | some p =>
    match p.apiKeys with
    | some l => l.reverse.find? (fun kc => kc.key == key)
    | none => none
  | none => none

/-- `getToolPricing`: tool-specific pricing for the tool's (original) name,
else the server's `defaultPricing`; `undefined` when the server is unknown. -/
def getToolPricing (cfg : GatewayConfig) (toolName serverId : String) : Option ToolPricing :=
  match cfg.servers.find? (fun s => s.name == serverId) with
  | none => none
  | some serverConfig =>
    match (serverConfig.tools.getD []).find? (fun t => t.name == toolName) with
    | some toolConfig =>
      match toolConfig.pricing with
      | some pr => some pr
      | none => serverConfig.defaultPricing
    | none => serverConfig.defaultPricing

/-- `parseAmountToAtomicUnits`: strip everything but digits and dots,
`parseFloat`, multiply by 10^6 in binary64, `Math.floor`, decimal string;
`"10000"` when the parse yields `NaN`. -/
def parseAmountToAtomicUnits (amount : String) : String :=
  match (parseDecLead (cleanAmount amount).toList).map Frac.roundDouble with
  | none => "10000"
  | some value =>
    let atomicUnits := (Frac.roundDouble (Frac.mul value ⟨1000000, 1⟩)).floor
    atomicUnits.toNat.repr

/-- `generatePaymentRequiredResponse`. -/
def generatePaymentRequiredResponse (cfg : GatewayConfig) (toolName serverId : String) :
    PaymentRequirements :=
  let pricing := getToolPricing cfg toolName serverId
  let amount := jsOrD (pricing.bind (·.x402)) "$0.01"
  let network := jsOrD ((cfg.payment).bind (·.network)) "base-sepolia"
  { x402Version := 1,
    accepts := [
      { scheme := "exact",
        network := network,
        maxAmountRequired := parseAmountToAtomicUnits amount,
        resource := "/tools/" ++ toolName,
        description := "Payment for MCP tool: " ++ toolName,
        mimeType := "application/json",
        payTo := jsOrD ((cfg.payment).bind (·.recipient)) "",
        maxTimeoutSeconds := 30,
        asset := getUsdcAddress network }],
    error := "Payment required for tool '" ++ toolName ++ "'. Amount: " ++ amount ++
      ". Use X-PAYMENT header (x402) or X-ELIZA-API-KEY." }

/-- The API-key header lookup chain of `verifyApiKey` (lines 126–130):
`headers['x-eliza-api-key'] || headers['X-ELIZA-API-KEY'] ||
headers['authorization']?.replace('Bearer ', '') ||
headers['Authorization']?.replace('Bearer ', '')`, with the final falsiness
test `if (!apiKey)` folded in. -/
def apiKeyHeaderOf (h : Headers) : Option String :=
  jsTruthy (jsOr (hget h "x-eliza-api-key")
    (jsOr (hget h "X-ELIZA-API-KEY")
      (jsOr ((hget h "authorization").map stripBearer)
        ((hget h "Authorization").map stripBearer))))

/-- The payment header lookup of `verifyX402Payment` (lines 179–181):
`headers['x-payment'] || headers['X-PAYMENT']` with the `if (!paymentHeader)`
falsiness test folded in. -/
def paymentHeaderOf (h : Headers) : Option String :=
  jsTruthy (jsOr (hget h "x-payment") (hget h "X-PAYMENT"))

/-- `verifyApiKey`. -/
def verifyApiKey (cfg : GatewayConfig) (headers : Option Headers)
    (pricing : Option ToolPricing) : PaymentVerificationResult :=
  match headers, pricing with
  | some h, some pr =>
    match apiKeyHeaderOf h with
    | none => { authorized := false }
    | some apiKey =>
      match apiKeyCacheGet cfg apiKey with
      | none => { authorized := false, error := some "Invalid API key" }
      | some keyConfig =>
        let tierPrice := pr.apiKeyTiers.bind (fun m => hget m keyConfig.tier)
        if tierPrice = some "free" ∨ tierPrice = some "$0.00" ∨ tierPrice = some "$0" then
          { authorized := true, pricing := some ⟨"0", .apiKey⟩ }
        else
          match jsTruthy tierPrice with
          | some tp => { authorized := true, pricing := some ⟨tp, .apiKey⟩ }
          | none => { authorized := false }
  | _, _ => { authorized := false }

/-- The JSON body posted to `${facilitatorUrl}/verify`. The base64 + JSON
decoding of the payment header is abstracted: the raw header value stands for
the decoded payload (no statement below depends on the decoded contents). -/
structure FacilitatorRequest where
  url : String
  paymentPayload : String
  scheme : String
  network : String
  maxAmountRequired : String
  payTo : Option String
  asset : String
deriving Repr, DecidableEq

/-- Possible outcomes of the facilitator `fetch`: a 2xx JSON verdict, a
non-2xx response, or a thrown error (network failure, or the decode of the
payment header throwing before the request is made). -/
inductive FacilitatorOutcome
  | ok (verified : Bool)
  | httpError (code : Nat)
  | threw (msg : String)
deriving Repr, DecidableEq

abbrev Facilitator := FacilitatorRequest → FacilitatorOutcome

/-- `verifyX402Payment`. The Bool component records whether the facilitator
verification block was entered (so `false` guarantees that no facilitator
request was performed). -/
def verifyX402Payment (cfg : GatewayConfig) (fac : Facilitator)
    (headers : Option Headers) (pricing : Option ToolPricing) :
    PaymentVerificationResult × Bool :=
  match headers, pricing with
  | some h, some pr =>
    match jsTruthy pr.x402 with
    | none => ({ authorized := false }, false)
    | some x402amt =>
      match paymentHeaderOf h with
      | none => ({ authorized := false }, false)
      | some paymentHeader =>
        let expectedAmount := parseAmountToAtomicUnits x402amt
        let facilitatorUrl := jsOrD ((cfg.payment).bind (·.facilitator)) "https://x402.org/facilitator"
        let network := jsOrD ((cfg.payment).bind (·.network)) "base-sepolia"
        let req : FacilitatorRequest :=
          { url := facilitatorUrl ++ "/verify",
            paymentPayload := paymentHeader,
            scheme := "exact",
            network := network,
            maxAmountRequired := expectedAmount,
            payTo := (cfg.payment).bind (·.recipient),
            asset := getUsdcAddress network }
        match fac req with
        | .ok true => ({ authorized := true, pricing := some ⟨x402amt, .x402⟩ }, true)
        | .ok false => ({ authorized := false, error := some "Payment verification failed" }, true)
        | .httpError _ => ({ authorized := false, error := some "Payment verification failed" }, true)
        | .threw m => ({ authorized := false, error := some ("Payment verification error: " ++ m) }, true)
  | _, _ => ({ authorized := false }, false)

/-- The `this.config.payment?.enabled` test of `verifyPayment`. -/
def paymentEnabled (cfg : GatewayConfig) : Bool :=
  match cfg.payment with
  | some p => p.enabled
  | none => false

/-- `verifyPayment`. The Bool component is inherited from
`verifyX402Payment`: `false` means the facilitator was never involved. -/
def verifyPayment (cfg : GatewayConfig) (fac : Facilitator) (toolName serverId : String)
    (headers : Option Headers) : PaymentVerificationResult × Bool :=
  if !paymentEnabled cfg then ({ authorized := true, pricing := some ⟨"0", .free⟩ }, false)
  else
    match getToolPricing cfg toolName serverId with
    | none => ({ authorized := true, pricing := some ⟨"0", .free⟩ }, false)
    | some pricing =>
      if pricing.free then ({ authorized := true, pricing := some ⟨"0", .free⟩ }, false)
      else
        let apiKeyResult := verifyApiKey cfg headers (some pricing)
        if apiKeyResult.authorized then (apiKeyResult, false)
        else
          let x402Result := verifyX402Payment cfg fac headers (some pricing)
          if x402Result.1.authorized then x402Result
          else
            let amount := jsOrD pricing.x402 "$0.01"
            ({ authorized := false,
               error := some ("Payment required: " ++ amount ++
                 ". Provide X-PAYMENT header (x402) or X-ELIZA-API-KEY."),
               pricing := some ⟨amount, .x402⟩ }, x402Result.2)

/-- `calculateMarkup`: binary64 arithmetic throughout, rendered with
`toFixed(6)` and a `$` prefix; `"$NaN"` when a parse yields `NaN`. -/
def calculateMarkup (downstreamPrice markup : String) : String :=
  let downstreamValue := jsParseFloat (cleanAmount downstreamPrice)
  if markup.toList.contains '%' then
    let percentage := jsParseFloat (dropFirstPercent markup)
    match downstreamValue, percentage with
    | some dv, some pct =>
      let ratio := Frac.roundDouble (Frac.divNat pct 100)
      let markupValue := Frac.roundDouble (Frac.mul dv ratio)
      "$" ++ toFixed6 (Frac.roundDouble (Frac.add dv markupValue))
    | _, _ => "$NaN"
  else
    let markupValue := jsParseFloat (cleanAmount markup)
    match downstreamValue, markupValue with
    | some dv, some mv => "$" ++ toFixed6 (Frac.roundDouble (Frac.add dv mv))
    | _, _ => "$NaN"

/-- `extractPaymentHeaders`: the six literal spellings copied in source
order, skipping falsy values. -/
def extractPaymentHeaders (headers : Option Headers) : Headers :=
  match headers with
  | none => []
  | some h =>
    (match jsTruthy (hget h "x-payment") with
      | some v => [("x-payment", v)]
      | none => []) ++
    (match jsTruthy (hget h "X-Payment") with
      | some v => [("X-Payment", v)]
      | none => []) ++
    (match jsTruthy (hget h "x-eliza-api-key") with
      | some v => [("x-eliza-api-key", v)]
      | none => []) ++
    (match jsTruthy (hget h "X-ELIZA-API-KEY") with
      | some v => [("X-ELIZA-API-KEY", v)]
      | none => []) ++
    (match jsTruthy (hget h "authorization") with
      | some v => [("authorization", v)]
      | none => []) ++
    (match jsTruthy (hget h "Authorization") with
      | some v => [("Authorization", v)]
      | none => [])

end PaymentMiddleware

/-- Dollar string with two decimals for n cents, e.g. `centString 201 = "$2.01"`. -/
def centString (n : Nat) : String :=
  "$" ++ (n / 100).repr ++ "." ++ padZeros 2 (n % 100).repr

/-- Exact-rational reading of the specification's `atomic`: the value of the
dollar string times 10^6, floored over exact rationals, rendered as a decimal
numeral (`none` when no number can be parsed). Stated from the spec's words
for comparison against `parseAmountToAtomicUnits`. -/
def atomicSpec (s : String) : Option String :=
  (parseDecLead (cleanAmount s).toList).map
    (fun q => (Frac.mul q ⟨1000000, 1⟩).floor.toNat.repr)

/-- Round an exact rational to 6 decimal places, halves away from zero
(upward for the nonnegative values used here). -/
def round6up (q : Frac) : Int :=
  let num6 := q.num * 1000000
  let f := num6.fdiv q.den
  let r2 := 2 * (num6 - f * (q.den : Int))
  if (q.den : Int) ≤ r2 then f + 1 else f

/-- Exact-rational reading of the specification's `computeMarkupPrice`:
`round6(p × (1 + P/100))` for a percent markup and `round6(p + f)` for a fixed
markup, computed over exact rationals and rendered as `"$X.XXXXXX"`. Stated
from the spec's words for comparison against `calculateMarkup`. -/
def markupSpec (downstreamPrice markup : String) : Option String :=
  let render : Frac → String := fun q =>
    let n := (round6up q).natAbs
    "$" ++ (n / 1000000).repr ++ "." ++ padZeros 6 (n % 1000000).repr
  let p? := parseDecLead (cleanAmount downstreamPrice).toList
  if markup.toList.contains '%' then
    match p?, parseDecLead (cleanAmount (dropFirstPercent markup)).toList with
    | some p, some pct => some (render (Frac.mul p (Frac.add ⟨1, 1⟩ (Frac.divNat pct 100))))
    | _, _ => none
  else
    match p?, parseDecLead (cleanAmount markup).toList with
    | some p, some f => some (render (Frac.add p f))
    | _, _ => none

namespace GatewayServer

/-! Embedding of the `CallTool` request handler of `src/core/gateway.ts`
(lines 61–94). The registry, connection manager and upstream client are the
handler's collaborators and enter as function parameters; the upstream
`callTool` result is `Except String ρ`, an exception standing for the thrown
error rendered as a string. -/

/-- JSON-RPC error codes used by the MCP SDK's `ErrorCode`. -/
def methodNotFoundCode : Int := -32601

def internalErrorCode : Int := -32603

structure McpError where
  code : Int
  message : String
deriving Repr, DecidableEq

/-- An entry of the capability registry (`AggregatedTool`). -/
structure AggregatedTool where
  name : String
  originalName : String
  serverId : String
  namespace' : Option String := none
deriving Repr, DecidableEq

inductive ConnStatus
  | connecting
  | connected
  | disconnected
  | error
deriving Repr, DecidableEq

structure Connection where
  status : ConnStatus
deriving Repr, DecidableEq

/-- Tool arguments: an opaque JSON-like bag (`args || {}` in the source turns
an absent bag into the empty one). -/
abbrev Args := List (String × String)

/-- The `CallTool` handler: registry lookup, connection check, forward with
the original tool name, error wrapping. -/
def callToolHandler {ρ : Type} (findTool : String → Option AggregatedTool)
    (getConnection : String → Option Connection)
    (callUpstream : String → String → Args → Except String ρ)
    (name : String) (args : Option Args) : Except McpError ρ :=
  match findTool name with
  | none => .error ⟨methodNotFoundCode, "Tool '" ++ name ++ "' not found"⟩
  | some tool =>
    match getConnection tool.serverId with
    | none => .error ⟨internalErrorCode, "Server '" ++ tool.serverId ++ "' is not connected"⟩
    | some connection =>
      if connection.status ≠ ConnStatus.connected then
        .error ⟨internalErrorCode, "Server '" ++ tool.serverId ++ "' is not connected"⟩
      else
        match callUpstream tool.serverId tool.originalName (args.getD []) with
        | .ok response => .ok response
        | .error e => .error ⟨internalErrorCode, "Tool execution failed: " ++ e⟩

end GatewayServer

namespace GatewayHttpServer

/-! Embedding of the payment-challenge (402) branch of
`GatewayHttpServer.handleRequest` — the `error instanceof PaymentRequiredError`
arm of the catch block. -/

structure PaymentRequiredError where
  network : String
  token : String
  amountMicroUSDC : String
  recipient : String
  nonce : String
  howToPayUrl : String
deriving Repr, DecidableEq

/-- The JSON object serialized into the 402 response body. -/
structure ChallengeBody where
  error : String
  paymentRequired : Bool
  network : String
  token : String
  amountMicroUSDC : String
  recipient : String
  nonce : String
  howToPay : String
deriving Repr, DecidableEq

structure HttpResponse where
  status : Nat
  headers : List (String × String)
  body : ChallengeBody
deriving Repr, DecidableEq

/-- The response written by `handleRequest` when a `PaymentRequiredError`
reaches its catch block (part_007 lines 122–148). -/
def renderPaymentRequired (e : PaymentRequiredError) : HttpResponse :=
  { status := 402,
    headers := [
      ("Content-Type", "application/json"),
      ("X-Payment-Required", "true"),
      ("X-Payment-Network", e.network),
      ("X-Payment-Token", e.token),
      ("X-Payment-Amount", e.amountMicroUSDC),
      ("X-Payment-Recipient", e.recipient)],
    body := {
      error := "Payment Required",
      paymentRequired := true,
      network := e.network,
      token := e.token,
      amountMicroUSDC := e.amountMicroUSDC,
      recipient := e.recipient,
      nonce := e.nonce,
      howToPay := e.howToPayUrl } }

/-- Header lookup in a rendered response (exact name, as the claims compare
literal header names). -/
def headerLookup (r : HttpResponse) (name : String) : Option String :=
  (r.headers.find? (fun p => p.1 == name)).map (·.2)

end GatewayHttpServer

namespace PaywallGuard

/-! Embedding of `src/paywall-guard.ts`: the static pricing lookup
(`getRequiredPriceMicroUSDC`) and the session ledger (`deductFromSession`).
Wall-clock fields (`expiresAt`, receipt timestamps) do not participate in the
embedded operations and are omitted; BigInt is `Int`. -/

structure PaywallWallet where
  network : String
deriving Repr, DecidableEq

structure PaywallPricing where
  defaultPriceMicroUSDC : Option String := none
  perTool : Option (List (String × String)) := none
  perResource : Option (List (String × String)) := none
  perPrompt : Option (List (String × String)) := none
deriving Repr, DecidableEq

structure PaywallConfig where
  enabled : Bool := false
  wallet : PaywallWallet
  pricing : PaywallPricing
  maxValueMicroUSDC : Option String := none
deriving Repr, DecidableEq

structure McpServerConfig where
  name : String
  paywall : Option PaywallConfig := none
deriving Repr, DecidableEq

inductive ItemKind
  | tool
  | resource
  | prompt
deriving Repr, DecidableEq

/-- `isPaywallEnabled`: `config.paywall?.enabled === true`. -/
def isPaywallEnabled (config : McpServerConfig) : Bool :=
  match config.paywall with
  | some pw => pw.enabled
  | none => false

/-- Character list of JS whitespace accepted by `BigInt(string)` trimming. -/
def trimWS (cs : List Char) : List Char :=
  ((cs.dropWhile isWSChar).reverse.dropWhile isWSChar).reverse

/-- Value of a digit list in the given radix; `none` if empty or any
character is not a digit of that radix. -/
def radixVal (radix : Nat) (cs : List Char) : Option Nat :=
  if cs.isEmpty then none
  else
    cs.foldl (fun acc c =>
      match acc with
      | none => none
      | some v =>
        let d :=
          if '0' ≤ c ∧ c ≤ '9' then some (c.toNat - 48)
          else if 'a' ≤ c ∧ c ≤ 'f' then some (c.toNat - 87)
          else if 'A' ≤ c ∧ c ≤ 'F' then some (c.toNat - 55)
          else none
        match d with
        | some dv => if dv < radix then some (v * radix + dv) else none
        | none => none) (some 0)

/-- JS `BigInt(string)`: trimmed empty string is 0; `0x`/`0o`/`0b` prefixes
select a radix (no sign allowed); otherwise an optional sign and decimal
digits; anything else throws (`none`). -/
def jsBigInt (s : String) : Option Int :=
  match trimWS s.toList with
  | [] => some 0
  | '0' :: 'x' :: rest => (radixVal 16 rest).map Int.ofNat
  | '0' :: 'X' :: rest => (radixVal 16 rest).map Int.ofNat
  | '0' :: 'o' :: rest => (radixVal 8 rest).map Int.ofNat
  | '0' :: 'O' :: rest => (radixVal 8 rest).map Int.ofNat
  | '0' :: 'b' :: rest => (radixVal 2 rest).map Int.ofNat
  | '0' :: 'B' :: rest => (radixVal 2 rest).map Int.ofNat
  | '+' :: rest => (radixVal 10 rest).map Int.ofNat
  | '-' :: rest => (radixVal 10 rest).map (fun n => -(n : Int))
  | cs => (radixVal 10 cs).map Int.ofNat

/-- The per-kind record selected by the `switch` in
`getRequiredPriceMicroUSDC` (lines 63–74). -/
def perItemPrice (kind : ItemKind) (pricing : PaywallPricing) (id : String) : Option String :=
  match kind with
  | .tool => pricing.perTool.bind (fun m => PaymentMiddleware.hget m id)
  | .resource => pricing.perResource.bind (fun m => PaymentMiddleware.hget m id)
  | .prompt => pricing.perPrompt.bind (fun m => PaymentMiddleware.hget m id)

/-- `getRequiredPriceMicroUSDC`. -/
def getRequiredPriceMicroUSDC (kind : ItemKind) (id : String) (config : McpServerConfig) :
    Option Int :=
  if !isPaywallEnabled config then none
  else
    match config.paywall with
    | none => none
    | some paywall =>
      let pricing := paywall.pricing
      let priceStr := perItemPrice kind pricing id
      -- `if (!priceStr) { priceStr = pricing.defaultPriceMicroUSDC; }`
      let priceStr := PaymentMiddleware.jsOr priceStr pricing.defaultPriceMicroUSDC
      -- `if (!priceStr) return null`
      match PaymentMiddleware.jsTruthy priceStr with
      | none => none
      | some ps =>
        match jsBigInt ps with
        | none => none
        | some price => if price > 0 then some price else none

/-- A paywall session (temporal fields omitted; see the namespace comment). -/
structure PaywallSession where
  sessionId : String
  authorizedAmount : Int
  remainingBalance : Int
deriving Repr, DecidableEq

/-- The session map owned by a `PaywallGuard` instance. -/
abbrev Sessions := String → Option PaywallSession

/-- `deductFromSession`: result flag plus the updated session map. -/
def deductFromSession (sessions : Sessions) (sessionId : String) (amount : Int) :
    Bool × Sessions :=
  if amount ≤ 0 then (true, sessions)
  else
    match sessions sessionId with
    | none => (false, sessions)
    | some session =>
      if session.remainingBalance < amount then (false, sessions)
      else
        (true, fun id =>
          if id = sessionId then
            some { session with remainingBalance := session.remainingBalance - amount }
          else sessions id)

end PaywallGuard

set_option maxRecDepth 1000000

open PaymentMiddleware PaywallGuard GatewayServer GatewayHttpServer

/-- Dropping the pattern from a list it starts off removes exactly that
leading pattern. -/
theorem dropFirstOcc_self_append (pat rest : List Char) (hne : pat ≠ []) :
    dropFirstOcc pat (pat ++ rest) = rest := by
  cases pat with
  | nil => exact absurd rfl hne
  | cons c t =>
    show dropFirstOcc (c :: t) (c :: (t ++ rest)) = rest
    unfold dropFirstOcc
    have hpre : (c :: t).isPrefixOf (c :: (t ++ rest)) = true := by
      rw [List.isPrefixOf_iff_prefix]
      exact List.prefix_append (c :: t) rest
    rw [hpre]
    simp

/-- `replace('Bearer ', '')` strips a leading `Bearer ` prefix. -/
theorem stripBearer_bearer (v : String) : stripBearer ("Bearer " ++ v) = v := by
  unfold stripBearer
  have h : ("Bearer " ++ v).toList = "Bearer ".toList ++ v.toList := by
    simp [String.toList]
  rw [h, dropFirstOcc_self_append _ _ (by decide)]
  cases v
  rfl

/-- C2: verifyPayment returns authorized = true with pricing method "free" and
amount "0", and performs no facilitator request, whenever the gateway payment
policy is disabled, or no pricing resolves for the tool, or the resolved
pricing has free = true. -/
theorem verifyPayment_free_paths (cfg : GatewayConfig) (fac : Facilitator)
    (toolName serverId : String) (headers : Option Headers)
    (h : paymentEnabled cfg = false ∨ getToolPricing cfg toolName serverId = none ∨
      ∃ pr, getToolPricing cfg toolName serverId = some pr ∧ pr.free = true) :
    verifyPayment cfg fac toolName serverId headers =
      ({ authorized := true, error := none, pricing := some ⟨"0", PricingMethod.free⟩ }, false) := by
  unfold verifyPayment
  rcases h with h | h | ⟨pr, hpr, hfree⟩
  · simp [h]
  · by_cases he : paymentEnabled cfg <;> simp [he, h]
  · by_cases he : paymentEnabled cfg <;> simp [he, hpr, hfree]

/-- Witness for C2: a gateway with payment disabled admits any tool for free
without consulting the facilitator. -/
theorem verifyPayment_free_paths_witness :
    paymentEnabled { servers := [], payment := some { enabled := false } } = false ∧
    verifyPayment { servers := [], payment := some { enabled := false } }
      (fun _ => FacilitatorOutcome.ok false) "ls" "fs" none =
      ({ authorized := true, error := none, pricing := some ⟨"0", PricingMethod.free⟩ }, false) :=
  ⟨rfl, verifyPayment_free_paths _ _ _ _ _ (Or.inl rfl)⟩

/-- C9: deductFromSession succeeds without change on a non-positive amount;
fails without any change when the session is missing or underfunded;
otherwise succeeds and decreases exactly the named session's balance by the
amount; and it never drives a balance negative. -/
theorem deductFromSession_spec (sessions : Sessions) (sessionId : String) (amount : Int) :
    (amount ≤ 0 → deductFromSession sessions sessionId amount = (true, sessions)) ∧
    (0 < amount → sessions sessionId = none →
      deductFromSession sessions sessionId amount = (false, sessions)) ∧
    (∀ s, 0 < amount → sessions sessionId = some s → s.remainingBalance < amount →
      deductFromSession sessions sessionId amount = (false, sessions)) ∧
    (∀ s, 0 < amount → sessions sessionId = some s → amount ≤ s.remainingBalance →
      (deductFromSession sessions sessionId amount).1 = true ∧
      (deductFromSession sessions sessionId amount).2 sessionId =
        some { s with remainingBalance := s.remainingBalance - amount } ∧
      (∀ id, id ≠ sessionId →
        (deductFromSession sessions sessionId amount).2 id = sessions id)) ∧
    (∀ id s', (∀ i t, sessions i = some t → 0 ≤ t.remainingBalance) →
      (deductFromSession sessions sessionId amount).2 id = some s' →
      0 ≤ s'.remainingBalance) := by
  refine ⟨?_, ?_, ?_, ?_, ?_⟩
  · intro hle
    unfold deductFromSession
    simp [hle]
  · intro hpos hnone
    unfold deductFromSession
    simp [hnone, not_le.mpr hpos]
  · intro s hpos hsome hlt
    unfold deductFromSession
    simp [hsome, not_le.mpr hpos, hlt]
  · intro s hpos hsome hge
    unfold deductFromSession
    simp [hsome, not_le.mpr hpos, not_lt.mpr hge]
    intro id hne h
    exact absurd h hne
  · intro id s' hinv hupd
    unfold deductFromSession at hupd
    by_cases hle : amount ≤ 0
    · simp [hle] at hupd
      exact hinv id s' hupd
    · simp [hle] at hupd
      cases hcase : sessions sessionId with
      | none =>
        rw [hcase] at hupd
        exact hinv id s' hupd
      | some s =>
        rw [hcase] at hupd
        by_cases hlt : s.remainingBalance < amount
        · simp [hlt] at hupd
          exact hinv id s' hupd
        · simp [hlt] at hupd
          by_cases hid : id = sessionId
          · simp [hid] at hupd
            cases hupd
            simp
            omega
          · simp [hid] at hupd
            exact hinv id s' hupd

/-- Witness for C9: a funded session is debited by exactly the amount. -/
theorem deductFromSession_spec_witness :
    ((fun id => if id = "a" then some (⟨"a", 10, 10⟩ : PaywallSession) else none) "a" =
      some ⟨"a", 10, 10⟩) ∧
    (deductFromSession
      (fun id => if id = "a" then some ⟨"a", 10, 10⟩ else none) "a" 3).1 = true ∧
    (deductFromSession
      (fun id => if id = "a" then some ⟨"a", 10, 10⟩ else none) "a" 3).2 "a" =
      some ⟨"a", 10, 7⟩ :=
  ⟨by simp, by
    have h := (deductFromSession_spec
      (fun id => if id = "a" then some ⟨"a", 10, 10⟩ else none) "a" 3).2.2.2.1
      ⟨"a", 10, 10⟩ (by decide) (by simp) (by decide)
    exact h.1, by
    have h := (deductFromSession_spec
      (fun id => if id = "a" then some ⟨"a", 10, 10⟩ else none) "a" 3).2.2.2.1
      ⟨"a", 10, 10⟩ (by decide) (by simp) (by decide)
    exact h.2.1⟩

/-- C7 counterexample: on an upstream error the handler's message is
"Tool execution failed: ..." with a capital T, so it does not begin with the
claimed lowercase "tool execution failed: ". -/
theorem callToolHandler_message_case_counterexample :
    callToolHandler (ρ := String)
      (fun n => if n = "t" then some ⟨"t", "t", "s", none⟩ else none)
      (fun _ => some ⟨ConnStatus.connected⟩)
      (fun _ _ _ => Except.error "boom")
      "t" none = Except.error ⟨internalErrorCode, "Tool execution failed: boom"⟩ ∧
    ("tool execution failed: ".toList).isPrefixOf
      ("Tool execution failed: boom".toList) = false := by
  constructor
  · rfl
  · decide

/-- C7 (amended): registry miss raises MethodNotFound; a missing or
non-connected upstream raises InternalError saying the server is not
connected; an upstream error is wrapped as InternalError whose message is
"Tool execution failed: " (capital T) followed by the upstream error. -/
theorem callToolHandler_errors {ρ : Type} (findTool : String → Option AggregatedTool)
    (getConnection : String → Option Connection)
    (callUpstream : String → String → Args → Except String ρ)
    (name : String) (args : Option Args) :
    (findTool name = none →
      callToolHandler findTool getConnection callUpstream name args =
        Except.error ⟨methodNotFoundCode, "Tool '" ++ name ++ "' not found"⟩) ∧
    (∀ t, findTool name = some t → getConnection t.serverId = none →
      callToolHandler findTool getConnection callUpstream name args =
        Except.error ⟨internalErrorCode, "Server '" ++ t.serverId ++ "' is not connected"⟩) ∧
    (∀ t c, findTool name = some t → getConnection t.serverId = some c →
      c.status ≠ ConnStatus.connected →
      callToolHandler findTool getConnection callUpstream name args =
        Except.error ⟨internalErrorCode, "Server '" ++ t.serverId ++ "' is not connected"⟩) ∧
    (∀ t c e, findTool name = some t → getConnection t.serverId = some c →
      c.status = ConnStatus.connected →
      callUpstream t.serverId t.originalName (args.getD []) = Except.error e →
      callToolHandler findTool getConnection callUpstream name args =
        Except.error ⟨internalErrorCode, "Tool execution failed: " ++ e⟩) := by
  refine ⟨?_, ?_, ?_, ?_⟩
  · intro h
    unfold callToolHandler
    simp [h]
  · intro t ht hc
    unfold callToolHandler
    simp [ht, hc]
  · intro t c ht hc hs
    unfold callToolHandler
    simp [ht, hc, hs]
  · intro t c e ht hc hs hcall
    unfold callToolHandler
    simp [ht, hc, hs, hcall]

/-- Witness for C7 (amended): a concrete upstream failure is wrapped with the
capital-T prefix, preserving the upstream message. -/
theorem callToolHandler_errors_witness :
    ((fun n => if n = "t" then some (⟨"t", "t", "s", none⟩ : AggregatedTool) else none) "t" =
      some ⟨"t", "t", "s", none⟩) ∧
    callToolHandler (ρ := String)
      (fun n => if n = "t" then some ⟨"t", "t", "s", none⟩ else none)
      (fun _ => some ⟨ConnStatus.connected⟩)
      (fun _ _ _ => Except.error "boom")
      "t" none = Except.error ⟨internalErrorCode, "Tool execution failed: boom"⟩ :=
  ⟨by simp, (callToolHandler_errors _ _ _ "t" none).2.2.2 ⟨"t", "t", "s", none⟩
    ⟨ConnStatus.connected⟩ "boom" (by simp) rfl rfl rfl⟩

/-- C8 counterexample: the 402 response of the HTTP server carries no
X-Accept-Payment header (it uses X-Payment-* headers instead), refuting the
claimed challenge shape at a concrete PaymentRequiredError. -/
theorem renderPaymentRequired_no_accept_header_counterexample :
    headerLookup (renderPaymentRequired ⟨"base-sepolia", "USDC", "100000", "0xR", "1", "u"⟩)
      "X-Accept-Payment" = none ∧
    (renderPaymentRequired ⟨"base-sepolia", "USDC", "100000", "0xR", "1", "u"⟩).status = 402 := by
  constructor
  · rfl
  · rfl

/-- C8 (amended): a surfaced payment challenge is an HTTP 402 with
Content-Type application/json, an X-Payment-Required: true marker,
X-Payment-Network/Token/Amount/Recipient headers drawn from the error, no
X-Accept-Payment header, and a JSON body carrying error "Payment Required",
paymentRequired true and the payment terms — not a PaymentRequirements
object. -/
theorem renderPaymentRequired_shape (e : PaymentRequiredError) :
    (renderPaymentRequired e).status = 402 ∧
    headerLookup (renderPaymentRequired e) "Content-Type" = some "application/json" ∧
    headerLookup (renderPaymentRequired e) "X-Payment-Required" = some "true" ∧
    headerLookup (renderPaymentRequired e) "X-Payment-Network" = some e.network ∧
    headerLookup (renderPaymentRequired e) "X-Payment-Token" = some e.token ∧
    headerLookup (renderPaymentRequired e) "X-Payment-Amount" = some e.amountMicroUSDC ∧
    headerLookup (renderPaymentRequired e) "X-Payment-Recipient" = some e.recipient ∧
    headerLookup (renderPaymentRequired e) "X-Accept-Payment" = none ∧
    (renderPaymentRequired e).body =
      { error := "Payment Required", paymentRequired := true, network := e.network,
        token := e.token, amountMicroUSDC := e.amountMicroUSDC, recipient := e.recipient,
        nonce := e.nonce, howToPay := e.howToPayUrl } :=
  ⟨rfl, rfl, rfl, rfl, rfl, rfl, rfl, rfl, rfl⟩

/-- C1: generatePaymentRequiredResponse emits x402Version 1 and exactly one
accepts entry with scheme "exact", the configured network, the atomic-unit
rendering of the resolved amount (pricing.x402, or "$0.01" when absent), the
"/tools/<toolName>" resource, the "Payment for MCP tool: <toolName>"
description, mimeType application/json, the configured recipient, a
30-second timeout, and the USDC contract for the network (base-sepolia's
address for unknown networks). -/
theorem generatePaymentRequiredResponse_shape (cfg : GatewayConfig)
    (toolName serverId : String) (p : PaymentConfig) (n r a : String)
    (hp : cfg.payment = some p) (hn : p.network = some n) (hne : n ≠ "")
    (hr : p.recipient = some r)
    (ha : (∃ v, (getToolPricing cfg toolName serverId).bind (·.x402) = some v ∧ v ≠ "" ∧ a = v) ∨
      (((getToolPricing cfg toolName serverId).bind (·.x402) = none ∨
        (getToolPricing cfg toolName serverId).bind (·.x402) = some "") ∧ a = "$0.01")) :
    (generatePaymentRequiredResponse cfg toolName serverId).x402Version = 1 ∧
    (generatePaymentRequiredResponse cfg toolName serverId).accepts =
      [{ scheme := "exact",
         network := n,
         maxAmountRequired := parseAmountToAtomicUnits a,
         resource := "/tools/" ++ toolName,
         description := "Payment for MCP tool: " ++ toolName,
         mimeType := "application/json",
         payTo := r,
         maxTimeoutSeconds := 30,
         asset := getUsdcAddress n }] ∧
    (∀ m, hget USDC_ADDRESSES m = none →
      getUsdcAddress m = "0x036CbD53842c5426634e7929541eC2318f3dCF7e") := by
  have hamount : jsOrD ((getToolPricing cfg toolName serverId).bind (·.x402)) "$0.01" = a := by
    rcases ha with ⟨v, hv, hvne, hav⟩ | ⟨hnone, hav⟩
    · rw [hv, hav]
      simp [jsOrD, jsTruthy, hvne]
    · rcases hnone with hnone | hempty
      · rw [hnone, hav]
        rfl
      · rw [hempty, hav]
        rfl
  have hnet : jsOrD ((cfg.payment).bind (·.network)) "base-sepolia" = n := by
    rw [hp]
    simp [Option.bind, hn, jsOrD, jsTruthy, hne]
  have hrec : jsOrD ((cfg.payment).bind (·.recipient)) "" = r := by
    rw [hp]
    simp only [Option.bind, hr]
    by_cases hre : r = ""
    · simp [jsOrD, jsTruthy, hre]
    · simp [jsOrD, jsTruthy, hre]
  refine ⟨rfl, ?_, ?_⟩
  · unfold generatePaymentRequiredResponse
    simp only [hamount, hnet, hrec]
  · intro m hm
    unfold getUsdcAddress
    rw [hm]
    rfl

/-- Witness for C1: the S2 scenario config (tool "price" at $0.01 on
base-sepolia) yields the expected single accepts entry; its maxAmountRequired
evaluates to "10000". -/
theorem generatePaymentRequiredResponse_shape_witness :
    (generatePaymentRequiredResponse
      { servers :=
          [{ name := "srv",
             tools := some [{ name := "price", pricing := some { x402 := some "$0.01" } }] }],
        payment :=
          some { enabled := true, recipient := some "0xAB01",
                 network := some "base-sepolia" } } "price" "srv").accepts =
      [{ scheme := "exact",
         network := "base-sepolia",
         maxAmountRequired := parseAmountToAtomicUnits "$0.01",
         resource := "/tools/" ++ "price",
         description := "Payment for MCP tool: " ++ "price",
         mimeType := "application/json",
         payTo := "0xAB01",
         maxTimeoutSeconds := 30,
         asset := getUsdcAddress "base-sepolia" }] ∧
    parseAmountToAtomicUnits "$0.01" = "10000" ∧
    getUsdcAddress "base-sepolia" = "0x036CbD53842c5426634e7929541eC2318f3dCF7e" :=
  ⟨(generatePaymentRequiredResponse_shape
      { servers :=
          [{ name := "srv",
             tools := some [{ name := "price", pricing := some { x402 := some "$0.01" } }] }],
        payment :=
          some { enabled := true, recipient := some "0xAB01",
                 network := some "base-sepolia" } } "price" "srv"
      { enabled := true, recipient := some "0xAB01", network := some "base-sepolia" }
      "base-sepolia" "0xAB01" "$0.01" rfl rfl (by decide) rfl
      (Or.inl ⟨"$0.01", by decide, by decide, rfl⟩)).2.1,
   by decide, by decide⟩

/-- C3 counterexample: with payment enabled, a non-free pricing whose
apiKeyTiers maps the key's tier to the present price "" (empty string), and a
configured key presented via x-eliza-api-key, verifyPayment does not
authorize (the empty tier price is falsy and falls through), contradicting
the claim that any present tier price authorizes with that price as amount. -/
theorem verifyPayment_empty_tier_price_counterexample :
    (verifyPayment
      { servers :=
          [{ name := "s",
             defaultPricing :=
               some { x402 := some "$0.10", apiKeyTiers := some [("premium", "")] } }],
        payment :=
          some { enabled := true, apiKeys := some [⟨"K", "premium"⟩] } }
      (fun _ => FacilitatorOutcome.ok false) "t" "s"
      (some [("x-eliza-api-key", "K")])).1.authorized = false ∧
    ((some [("premium", "")] : Option (List (String × String))).bind
      (fun m => hget m "premium")) = some "" := by
  constructor
  · decide
  · decide

/-- C3 (amended): with payment enabled and a resolved non-free pricing, a
configured API key whose tier maps to "free", "$0" or "$0.00" authorizes with
method apiKey and amount "0"; a tier mapping to any other present non-empty
price authorizes with that price as the amount (an empty-string tier price is
falsy and does not authorize); in both authorized cases the facilitator is
not contacted; and a key whose tier has no entry falls through to x402
verification (here shown with no payment header: the final outcome is the
x402 challenge, not an apiKey authorization). -/
theorem verifyPayment_apiKey_tiers (cfg : GatewayConfig) (fac : Facilitator)
    (toolName serverId key : String) (h : Headers) (kc : ApiKeyConfig) (pr : ToolPricing)
    (henabled : paymentEnabled cfg = true)
    (hpr : getToolPricing cfg toolName serverId = some pr) (hfree : pr.free = false)
    (hkey : hget h "x-eliza-api-key" = some key) (hkne : key ≠ "")
    (hkc : apiKeyCacheGet cfg key = some kc) :
    (∀ px, pr.apiKeyTiers.bind (fun m => hget m kc.tier) = some px →
      (px = "free" ∨ px = "$0" ∨ px = "$0.00") →
      verifyPayment cfg fac toolName serverId (some h) =
        ({ authorized := true, error := none,
           pricing := some ⟨"0", PricingMethod.apiKey⟩ }, false)) ∧
    (∀ px, pr.apiKeyTiers.bind (fun m => hget m kc.tier) = some px →
      ¬(px = "free" ∨ px = "$0" ∨ px = "$0.00") → px ≠ "" →
      verifyPayment cfg fac toolName serverId (some h) =
        ({ authorized := true, error := none,
           pricing := some ⟨px, PricingMethod.apiKey⟩ }, false)) ∧
    (pr.apiKeyTiers.bind (fun m => hget m kc.tier) = none →
      hget h "x-payment" = none → hget h "X-PAYMENT" = none →
      verifyPayment cfg fac toolName serverId (some h) =
        ({ authorized := false,
           error := some ("Payment required: " ++ jsOrD pr.x402 "$0.01" ++
             ". Provide X-PAYMENT header (x402) or X-ELIZA-API-KEY."),
           pricing := some ⟨jsOrD pr.x402 "$0.01", PricingMethod.x402⟩ }, false)) := by
  have hchain : apiKeyHeaderOf h = some key := by
    unfold apiKeyHeaderOf
    rw [hkey]
    simp [jsOr, jsTruthy, hkne]
  refine ⟨?_, ?_, ?_⟩
  · intro px htier hfreeTier
    have hapi : verifyApiKey cfg (some h) (some pr) =
        { authorized := true, error := none, pricing := some ⟨"0", PricingMethod.apiKey⟩ } := by
      simp only [verifyApiKey, hchain, hkc, htier]
      rcases hfreeTier with hf | hf | hf <;> simp [hf]
    simp [verifyPayment, henabled, hpr, hfree, hapi]
  · intro px htier hnotfree hne
    have h1 : ¬(px = "free") := fun hx => hnotfree (Or.inl hx)
    have h2 : ¬(px = "$0") := fun hx => hnotfree (Or.inr (Or.inl hx))
    have h3 : ¬(px = "$0.00") := fun hx => hnotfree (Or.inr (Or.inr hx))
    have hapi : verifyApiKey cfg (some h) (some pr) =
        { authorized := true, error := none, pricing := some ⟨px, PricingMethod.apiKey⟩ } := by
      simp only [verifyApiKey, hchain, hkc, htier]
      simp [h1, h2, h3, jsTruthy, hne]
    simp [verifyPayment, henabled, hpr, hfree, hapi]
  · intro htier hxp hXP
    have hpay : paymentHeaderOf h = none := by
      unfold paymentHeaderOf
      rw [hxp, hXP]
      rfl
    have hapi : verifyApiKey cfg (some h) (some pr) =
        { authorized := false, error := none, pricing := none } := by
      simp only [verifyApiKey, hchain, hkc, htier]
      simp [jsTruthy]
    have hx402 : verifyX402Payment cfg fac (some h) (some pr) =
        ({ authorized := false, error := none, pricing := none }, false) := by
      cases hx : jsTruthy pr.x402 with
      | none => simp [verifyX402Payment, hx]
      | some v => simp [verifyX402Payment, hx, hpay]
    simp [verifyPayment, henabled, hpr, hfree, hapi, hx402]

/-- Witness for C3 (amended): the S3 scenario — key "K" on tier premium with
apiKeyTiers mapping premium to "free" — authorizes with amount "0" and no
facilitator contact. -/
theorem verifyPayment_apiKey_tiers_witness :
    verifyPayment
      { servers :=
          [{ name := "s",
             defaultPricing :=
               some { x402 := some "$0.10", apiKeyTiers := some [("premium", "free")] } }],
        payment :=
          some { enabled := true, apiKeys := some [⟨"K", "premium"⟩] } }
      (fun _ => FacilitatorOutcome.ok false) "t" "s"
      (some [("x-eliza-api-key", "K")]) =
      ({ authorized := true, error := none,
         pricing := some ⟨"0", PricingMethod.apiKey⟩ }, false) :=
  (verifyPayment_apiKey_tiers
    { servers :=
        [{ name := "s",
           defaultPricing :=
             some { x402 := some "$0.10", apiKeyTiers := some [("premium", "free")] } }],
      payment :=
        some { enabled := true, apiKeys := some [⟨"K", "premium"⟩] } }
    (fun _ => FacilitatorOutcome.ok false) "t" "s" "K"
    [("x-eliza-api-key", "K")] ⟨"K", "premium"⟩
    { x402 := some "$0.10", apiKeyTiers := some [("premium", "free")] }
    rfl (by decide) rfl (by decide) (by decide) (by decide)).1
    "free" (by decide) (Or.inl rfl)

/-- C6 counterexample: header recognition is not case-insensitive. The casing
X-Eliza-Api-Key is not found by the API-key check even though the presented
key is configured (the canonical lowercase spelling is); and the casing
X-PAYMENT — the one the x402 check recognizes — is not copied at all by
extractPaymentHeaders. -/
theorem header_case_sensitivity_counterexample :
    verifyApiKey
      { servers := [],
        payment := some { enabled := true, apiKeys := some [⟨"K", "premium"⟩] } }
      (some [("X-Eliza-Api-Key", "K")])
      (some { x402 := some "$0.10", apiKeyTiers := some [("premium", "free")] }) =
      { authorized := false, error := none, pricing := none } ∧
    verifyApiKey
      { servers := [],
        payment := some { enabled := true, apiKeys := some [⟨"K", "premium"⟩] } }
      (some [("x-eliza-api-key", "K")])
      (some { x402 := some "$0.10", apiKeyTiers := some [("premium", "free")] }) =
      { authorized := true, error := none, pricing := some ⟨"0", PricingMethod.apiKey⟩ } ∧
    paymentHeaderOf [("X-PAYMENT", "pay")] = some "pay" ∧
    extractPaymentHeaders (some [("X-PAYMENT", "pay")]) = [] := by
  refine ⟨?_, ?_, ?_, ?_⟩ <;> decide

/-- C6 (amended): the Mediator matches only literal spellings, not arbitrary
casings. The API-key check finds exactly x-eliza-api-key, X-ELIZA-API-KEY,
and the two Authorization spellings (Bearer-stripped); the x402 check finds
exactly x-payment and X-PAYMENT; extractPaymentHeaders copies exactly the six
spellings x-payment, X-Payment, x-eliza-api-key, X-ELIZA-API-KEY,
authorization, Authorization (in those exact casings) and drops every other
spelling. -/
theorem header_spellings (name v : String) (hv : v ≠ "") :
    (apiKeyHeaderOf [("x-eliza-api-key", v)] = some v) ∧
    (apiKeyHeaderOf [("X-ELIZA-API-KEY", v)] = some v) ∧
    (apiKeyHeaderOf [("authorization", "Bearer " ++ v)] = some v) ∧
    (apiKeyHeaderOf [("Authorization", "Bearer " ++ v)] = some v) ∧
    (paymentHeaderOf [("x-payment", v)] = some v) ∧
    (paymentHeaderOf [("X-PAYMENT", v)] = some v) ∧
    (name ∈ ["x-payment", "X-Payment", "x-eliza-api-key", "X-ELIZA-API-KEY",
      "authorization", "Authorization"] →
      extractPaymentHeaders (some [(name, v)]) = [(name, v)]) ∧
    (name ∉ ["x-payment", "X-Payment", "x-eliza-api-key", "X-ELIZA-API-KEY",
      "authorization", "Authorization"] →
      extractPaymentHeaders (some [(name, v)]) = []) ∧
    (name ∉ ["x-eliza-api-key", "X-ELIZA-API-KEY", "authorization", "Authorization"] →
      apiKeyHeaderOf [(name, v)] = none) ∧
    (name ∉ ["x-payment", "X-PAYMENT"] → paymentHeaderOf [(name, v)] = none) := by
  have hb : stripBearer ("Bearer " ++ v) = v := stripBearer_bearer v
  have hvb : "Bearer " ++ v ≠ "" := by
    intro hx
    have hlen : ("Bearer " ++ v).length = (0 : Nat) := by rw [hx]; rfl
    simp [String.length_append] at hlen
    exact absurd hlen.1 (by decide)
  refine ⟨?_, ?_, ?_, ?_, ?_, ?_, ?_, ?_, ?_, ?_⟩
  · simp [apiKeyHeaderOf, hget, List.find?, jsOr, jsTruthy, hv]
  · simp [apiKeyHeaderOf, hget, List.find?, jsOr, jsTruthy, hv]
  · simp [apiKeyHeaderOf, hget, List.find?, jsOr, jsTruthy, hb, hv, hvb]
  · simp [apiKeyHeaderOf, hget, List.find?, jsOr, jsTruthy, hb, hv, hvb]
  · simp [paymentHeaderOf, hget, List.find?, jsOr, jsTruthy, hv]
  · simp [paymentHeaderOf, hget, List.find?, jsOr, jsTruthy, hv]
  · intro hmem
    simp only [List.mem_cons, List.mem_singleton, List.not_mem_nil, or_false] at hmem
    rcases hmem with h | h | h | h | h | h <;>
      subst h <;> simp [extractPaymentHeaders, hget, List.find?, jsTruthy, hv]
  · intro hmem
    simp only [List.mem_cons, List.mem_singleton, List.not_mem_nil, or_false,
      not_or] at hmem
    obtain ⟨h1, h2, h3, h4, h5, h6⟩ := hmem
    have b1 : (name == "x-payment") = false := by simp [h1]
    have b2 : (name == "X-Payment") = false := by simp [h2]
    have b3 : (name == "x-eliza-api-key") = false := by simp [h3]
    have b4 : (name == "X-ELIZA-API-KEY") = false := by simp [h4]
    have b5 : (name == "authorization") = false := by simp [h5]
    have b6 : (name == "Authorization") = false := by simp [h6]
    simp [extractPaymentHeaders, hget, List.find?, jsTruthy, b1, b2, b3, b4, b5, b6]
  · intro hmem
    simp only [List.mem_cons, List.mem_singleton, List.not_mem_nil, or_false,
      not_or] at hmem
    obtain ⟨h1, h2, h3, h4⟩ := hmem
    have b1 : (name == "x-eliza-api-key") = false := by simp [h1]
    have b2 : (name == "X-ELIZA-API-KEY") = false := by simp [h2]
    have b3 : (name == "authorization") = false := by simp [h3]
    have b4 : (name == "Authorization") = false := by simp [h4]
    simp [apiKeyHeaderOf, hget, List.find?, jsOr, jsTruthy, b1, b2, b3, b4]
  · intro hmem
    simp only [List.mem_cons, List.mem_singleton, List.not_mem_nil, or_false,
      not_or] at hmem
    obtain ⟨h1, h2⟩ := hmem
    have b1 : (name == "x-payment") = false := by simp [h1]
    have b2 : (name == "X-PAYMENT") = false := by simp [h2]
    simp [paymentHeaderOf, hget, List.find?, jsOr, jsTruthy, b1, b2]

/-- Witness for C6 (amended): the canonical lowercase API-key spelling with a
concrete key is recognized. -/
theorem header_spellings_witness :
    ("K" : String) ≠ "" ∧ apiKeyHeaderOf [("x-eliza-api-key", "K")] = some "K" :=
  ⟨by decide, (header_spellings "x" "K" (by decide)).1⟩

/-- C10 counterexample: an empty per-tool price string is falsy, so the
lookup falls back to the default price rather than the per-item entry taking
precedence — here the per-tool entry for "t" is "" yet the default "5" is
charged, where the claimed precedence would treat the item as free. -/
theorem getRequiredPrice_empty_perItem_counterexample :
    getRequiredPriceMicroUSDC ItemKind.tool "t"
      { name := "s",
        paywall :=
          some { enabled := true, wallet := ⟨"base-sepolia"⟩,
                 pricing := { defaultPriceMicroUSDC := some "5",
                              perTool := some [("t", "")] } } } = some 5 ∧
    perItemPrice ItemKind.tool
      { defaultPriceMicroUSDC := some "5", perTool := some [("t", "")] } "t" = some "" := by
  constructor
  · decide
  · decide

/-- C10 (amended): getRequiredPriceMicroUSDC yields null whenever the paywall
is disabled, no (non-empty) per-item or default price string applies, the
effective price string fails to parse as a BigInt, or parses to a value ≤ 0;
it yields an obligation exactly for a strictly positive parse; and a
non-empty per-item price takes precedence over the default (an empty
per-item string is falsy and falls back to the default). -/
theorem getRequiredPrice_spec (kind : ItemKind) (id : String) (config : McpServerConfig) :
    (isPaywallEnabled config = false →
      getRequiredPriceMicroUSDC kind id config = none) ∧
    (∀ pw, config.paywall = some pw → pw.enabled = true →
      (PaymentMiddleware.jsTruthy
          (PaymentMiddleware.jsOr (perItemPrice kind pw.pricing id)
            pw.pricing.defaultPriceMicroUSDC) = none →
        getRequiredPriceMicroUSDC kind id config = none) ∧
      (∀ s, PaymentMiddleware.jsTruthy
          (PaymentMiddleware.jsOr (perItemPrice kind pw.pricing id)
            pw.pricing.defaultPriceMicroUSDC) = some s →
        (jsBigInt s = none → getRequiredPriceMicroUSDC kind id config = none) ∧
        (∀ pv, jsBigInt s = some pv → pv ≤ 0 →
          getRequiredPriceMicroUSDC kind id config = none) ∧
        (∀ pv, jsBigInt s = some pv → 0 < pv →
          getRequiredPriceMicroUSDC kind id config = some pv)) ∧
      (∀ s, perItemPrice kind pw.pricing id = some s → s ≠ "" →
        PaymentMiddleware.jsOr (perItemPrice kind pw.pricing id)
          pw.pricing.defaultPriceMicroUSDC = some s)) := by
  constructor
  · intro hdis
    unfold getRequiredPriceMicroUSDC
    simp [hdis]
  · intro pw hpw hen
    have hena : isPaywallEnabled config = true := by
      unfold isPaywallEnabled
      rw [hpw]
      exact hen
    refine ⟨?_, ?_, ?_⟩
    · intro hnone
      simp [getRequiredPriceMicroUSDC, hena, hpw, hnone]
    · intro s hs
      refine ⟨?_, ?_, ?_⟩
      · intro hparse
        simp [getRequiredPriceMicroUSDC, hena, hpw, hs, hparse]
      · intro pv hparse hle
        simp [getRequiredPriceMicroUSDC, hena, hpw, hs, hparse, not_lt.mpr hle]
      · intro pv hparse hpos
        simp [getRequiredPriceMicroUSDC, hena, hpw, hs, hparse, hpos]
    · intro s hper hne
      rw [hper]
      simp [PaymentMiddleware.jsOr, hne]

/-- Witness for C10 (amended): a positive per-tool price of 7 micro-USDC is
charged for that tool. -/
theorem getRequiredPrice_spec_witness :
    getRequiredPriceMicroUSDC ItemKind.tool "t"
      { name := "s",
        paywall :=
          some { enabled := true, wallet := ⟨"base-sepolia"⟩,
                 pricing := { defaultPriceMicroUSDC := none,
                              perTool := some [("t", "7")] } } } = some 7 :=
  (((getRequiredPrice_spec ItemKind.tool "t"
      { name := "s",
        paywall :=
          some { enabled := true, wallet := ⟨"base-sepolia"⟩,
                 pricing := { defaultPriceMicroUSDC := none,
                              perTool := some [("t", "7")] } } }).2
    { enabled := true, wallet := ⟨"base-sepolia"⟩,
      pricing := { defaultPriceMicroUSDC := none, perTool := some [("t", "7")] } }
    rfl rfl).2.1 "7" (by decide)).2.2 7 (by decide) (by decide)

/-- C4 counterexample: parseAmountToAtomicUnits computes in binary64, and at
"$2.01" the product parseFloat("2.01") × 10⁶ rounds to a double just below
2010000, so Math.floor yields 2009999 — not the exact-rational
floor(2.01 × 10⁶) = 2010000 the claim states. -/
theorem parseAmountToAtomicUnits_counterexample :
    parseAmountToAtomicUnits "$2.01" = "2009999" ∧
    atomicSpec "$2.01" = some "2010000" := by
  constructor
  · decide
  · decide

/-- C4 (amended): parseAmountToAtomicUnits returns the decimal string of the
floor of the IEEE-754 binary64 evaluation of parseFloat(stripped) × 10⁶.
This agrees with the exact floor(X.YZ × 10⁶) for every two-decimal dollar
string up to "$2.00" (in particular "$0.01" → "10000"), though not for all
inputs; and every input in which no number can be parsed yields "10000". -/
theorem parseAmountToAtomicUnits_amended :
    (∀ n, n < 201 → parseAmountToAtomicUnits (centString n) = (n * 10000).repr) ∧
    (∀ s, parseDecLead (cleanAmount s).toList = none →
      parseAmountToAtomicUnits s = "10000") := by
  constructor
  · decide
  · intro s hs
    unfold parseAmountToAtomicUnits
    rw [hs]
    rfl

/-- Witness for C4 (amended): one cent is 10000 atomic units, and the
digit-free string "abc" falls back to the default. -/
theorem parseAmountToAtomicUnits_amended_witness :
    (1 < 201 ∧ parseAmountToAtomicUnits (centString 1) = (1 * 10000).repr) ∧
    (parseDecLead (cleanAmount "abc").toList = none ∧
      parseAmountToAtomicUnits "abc" = "10000") :=
  ⟨⟨by decide, parseAmountToAtomicUnits_amended.1 1 (by decide)⟩,
   ⟨by decide, parseAmountToAtomicUnits_amended.2 "abc" (by decide)⟩⟩

/-- C5 counterexample: calculateMarkup computes in binary64 and renders with
toFixed(6). At p = "$6.59925", markup = "10485.8%" the exact product
6.59925 × 105.858 = 698.5834065 sits exactly on a 6-decimal tie, which
round-half-up sends to "$698.583407", but the double evaluation lands just
below the tie and the code returns "$698.583406". (No tie convention rescues
the claim: at the fixed-markup tie "$0.10" + "$0.0000005" = 0.1000005 the
code returns "$0.100001", which half-even would forbid.) -/
theorem calculateMarkup_counterexample :
    calculateMarkup "$6.59925" "10485.8%" = "$698.583406" ∧
    markupSpec "$6.59925" "10485.8%" = some "$698.583407" ∧
    calculateMarkup "$0.10" "$0.0000005" = "$0.100001" := by
  refine ⟨?_, ?_, ?_⟩ <;> decide

/-- C5 (amended): calculateMarkup evaluates the markup in binary64 and
renders with toFixed(6). That evaluation does not in general equal the
exact-rational result rounded to 6 decimal places: besides the tie of the
counterexample, it also diverges away from ties when the operands' double
roundings carry the sum across a rounding boundary — the exact sum
0.10 + 0.00000049999999999999999 is strictly below the midpoint
0.1000005 and rounds to "$0.100000" under every convention, yet the code
returns "$0.100001". The specified instances do hold: a 20% markup on
"$0.10" publishes "$0.120000" and a "$0.05" fixed markup publishes
"$0.150000", both equal to the exact round-to-6 results. -/
theorem calculateMarkup_amended :
    calculateMarkup "$0.10" "20%" = "$0.120000" ∧
    calculateMarkup "$0.10" "$0.05" = "$0.150000" ∧
    markupSpec "$0.10" "20%" = some "$0.120000" ∧
    markupSpec "$0.10" "$0.05" = some "$0.150000" ∧
    calculateMarkup "$0.10" "$0.00000049999999999999999" = "$0.100001" ∧
    markupSpec "$0.10" "$0.00000049999999999999999" = some "$0.100000" := by
  refine ⟨?_, ?_, ?_, ?_, ?_, ?_⟩ <;> decide
